import Mathlib

/-!
Shallow embedding of the sensor-gated, heartbeat-monitored work queue of
src/heating_machine/queue.py.  Python mutable state is passed explicitly,
awaitable races are resolved by an explicit environment record, Python
floats are modelled by rationals, and Python exceptions by an inductive
type.  Each definition's doc comment names the source lines it embeds.
-/

namespace HeatingMachine

/-- Embedding of the counter bundle WorkQueueMetrics (queue.py lines 17-26).
All counters are non-negative integers starting at zero. -/
structure WorkQueueMetrics where
  started : Nat := 0
  completed : Nat := 0
  failed : Nat := 0
  timed_out : Nat := 0
  heartbeat_missed : Nat := 0
  sensor_throttles : Nat := 0
  sensor_aborts : Nat := 0
  queue_rejections : Nat := 0
deriving DecidableEq

/-- Metrics with every counter zero, the state of a freshly constructed
WorkQueueMetrics() (all dataclass fields default to 0). -/
def WorkQueueMetrics.init : WorkQueueMetrics := {}

/-- Embedding of the Python exceptions observable through the queue:
asyncio.TimeoutError, HeartbeatMissed (queue.py line 9), SensorLimitExceeded
(line 13), asyncio.QueueFull (raised by put_nowait, line 202),
asyncio.InvalidStateError (raised by Future.set_exception on a done future),
and any other Exception subclass a job body may raise.  All constructors
model subclasses of Exception. -/
inductive PyExc where
  | timeoutError (msg : String)
  | heartbeatMissed (msg : String)
  | sensorLimitExceeded (msg : String)
  | queueFull (msg : String)
  | invalidStateError (msg : String)
  | otherExc (clsName msg : String)
deriving DecidableEq

/-- Terminal state of an asyncio.Future: a result, an exception, or
externally cancelled. -/
inductive FutureValue (α : Type) where
  | result (v : α)
  | exc (e : PyExc)
  | cancelled
deriving DecidableEq

/-- State of an asyncio.Future: none is pending, some is done
(Future.done() returns True for resolved and cancelled futures alike). -/
abbrev FutureState (α : Type) : Type := Option (FutureValue α)

/-- Embedding of Future.set_exception: on a pending future it stores the
exception; on a done future asyncio raises InvalidStateError, returned here
as the second component (the future itself is left unchanged). -/
def setFutureExc (fut : FutureState α) (e : PyExc) :
    FutureState α × Option PyExc :=
  match fut with
  | none => (some (.exc e), none)
  | some v => (some v, some (.invalidStateError "invalid state"))

/-- Embedding of SensorSnapshot (queue.py lines 41-44); Python floats are
modelled by rationals and missing readings by none. -/
structure SensorSnapshot where
  temperature_c : Option ℚ := none
  battery_percent : Option ℚ := none
deriving DecidableEq

/-- Embedding of the SensorPolicy constructor state (queue.py lines 47-63).
The reader callable is modelled by the hasReader flag together with the
read sequence passed separately to enforce. -/
structure SensorPolicy where
  hasReader : Bool
  max_temperature_c : Option ℚ := none
  min_battery_percent : Option ℚ := none
  cooldown_seconds : ℚ := 1 / 2
  stop_on_violation : Bool := false
deriving DecidableEq

/-- Embedding of SensorPolicy._has_violation (queue.py lines 73-86): a None
snapshot never violates; a known temperature strictly above the configured
maximum or a known battery strictly below the configured minimum violates;
unknown bounds or unknown readings never violate. -/
def SensorPolicy.hasViolation (p : SensorPolicy)
    (snapshot : Option SensorSnapshot) : Bool :=
  match snapshot with
  | none => false
  | some snap =>
    let over_temp :=
      match p.max_temperature_c, snap.temperature_c with
      | some mx, some t => decide (t > mx)
      | _, _ => false
    let low_battery :=
      match p.min_battery_percent, snap.battery_percent with
      | some mn, some b => decide (b < mn)
      | _, _ => false
    over_temp || low_battery

/-- Outcome of SensorPolicy.enforce: passed (normal return) or aborted
(SensorLimitExceeded raised). -/
inductive SensorOutcome where
  | passed
  | aborted
deriving DecidableEq

/-- Result of running enforce: the outcome (none when the fuel bound was
reached while still throttling), the updated metrics, and the total time
spent in asyncio.sleep(cooldown_seconds) calls. -/
structure EnforceRun where
  outcome : Option SensorOutcome
  metrics : WorkQueueMetrics
  slept : ℚ
deriving DecidableEq

/-- Embedding of the while-loop of SensorPolicy.enforce (queue.py lines
91-105).  reads k is the k-th value produced by _read_snapshot; fuel bounds
the number of loop iterations; slept accumulates cooldown suspensions. -/
def SensorPolicy.enforceLoop (p : SensorPolicy)
    (reads : Nat → Option SensorSnapshot) :
    Nat → Nat → WorkQueueMetrics → ℚ → EnforceRun
  | _, 0, m, slept => ⟨none, m, slept⟩
  | k, fuel + 1, m, slept =>
    if p.hasViolation (reads k) = false then ⟨some .passed, m, slept⟩
    else if p.stop_on_violation then
      ⟨some .aborted, { m with sensor_aborts := m.sensor_aborts + 1 }, slept⟩
    else
      p.enforceLoop reads (k + 1) fuel
        { m with sensor_throttles := m.sensor_throttles + 1 }
        (slept + p.cooldown_seconds)

/-- Embedding of SensorPolicy.enforce (queue.py lines 88-105): with no
reader configured it returns immediately with no effect (lines 89-90);
otherwise it runs the snapshot loop starting at read index 0. -/
def SensorPolicy.enforce (p : SensorPolicy)
    (reads : Nat → Option SensorSnapshot) (fuel : Nat)
    (m : WorkQueueMetrics) : EnforceRun :=
  if p.hasReader then p.enforceLoop reads 0 fuel m 0
  else ⟨some .passed, m, 0⟩

/-- Embedding of the Heartbeat state (queue.py lines 108-115): an interval
and the asyncio.Event flag.  The constructor creates the event unset and
then calls ping (line 112). -/
structure Heartbeat where
  interval : ℚ
  eventSet : Bool
deriving DecidableEq

/-- Embedding of Heartbeat.ping (queue.py lines 114-115): sets the event. -/
def Heartbeat.ping (h : Heartbeat) : Heartbeat := { h with eventSet := true }

/-- Embedding of Heartbeat.__init__ (queue.py lines 109-112): the event
starts unset and the constructor immediately pings. -/
def Heartbeat.init (interval : ℚ) : Heartbeat :=
  Heartbeat.ping ⟨interval, false⟩

/-- Embedding of the loop of Heartbeat.monitor (queue.py lines 117-123)
over a finite trace of wait windows.  The Boolean argument is the event
state when a wait begins; the k-th list entry tells whether a ping arrives
before that wait's interval deadline.  wait_for returns when the event is
already set or a ping arrives in time, after which the event is cleared
(line 123); otherwise the wait times out and HeartbeatMissed is raised
(line 122), reported as some k.  none means the monitor is still running
after the trace (it never returns normally). -/
def Heartbeat.monitorSteps : Bool → List Bool → Option Nat
  | _, [] => none
  | armed, w :: ws =>
    if armed || w then Option.map Nat.succ (Heartbeat.monitorSteps false ws)
    else some 0

/-- Heartbeat.monitor run from a heartbeat value: starts from its current
event state. -/
def Heartbeat.monitorRun (h : Heartbeat) (windows : List Bool) : Option Nat :=
  Heartbeat.monitorSteps h.eventSet windows

/-- Embedding of the value returned (or exception raised) by an awaited
job body. -/
inductive JobResult (α : Type) where
  | value (v : α)
  | raises (e : PyExc)
deriving DecidableEq

/-- Embedding of JobRequest (queue.py lines 126-131).  The job closure fn
is modelled by the JobEnv record describing its behaviour; the completion
future travels with the request. -/
structure JobRequest (α : Type) where
  duration_limit : Option ℚ := none
  heartbeat_interval : Option ℚ := none
  future : FutureState α := none
deriving DecidableEq

/-- Environment record resolving the asynchronous races of one job run:
what the body would produce, whether it runs past an applied duration
limit, whether it fails to rearm an armed heartbeat monitor in time, and
which of the two supervision failures reaches the worker first when both
fire. -/
structure JobEnv (α : Type) where
  body : JobResult α
  exceedsLimit : Bool := false
  missesHeartbeat : Bool := false
  missFirst : Bool := true
deriving DecidableEq

/-- Python truthiness of an optional float, as used by the worker on
request.heartbeat_interval and request.duration_limit: None and 0 are
falsy, every other number is truthy. -/
def truthy (x : Option ℚ) : Bool :=
  match x with
  | none => false
  | some v => decide (v ≠ 0)

/-- Embedding of the check on queue.py line 221: a heartbeat (and hence a
monitor task) is created iff request.heartbeat_interval is truthy. -/
def createsMonitor (req : JobRequest α) : Bool := truthy req.heartbeat_interval

/-- Embedding of the check on queue.py line 227: run_job wraps the body in
asyncio.wait_for iff request.duration_limit is truthy. -/
def appliesDeadline (req : JobRequest α) : Bool := truthy req.duration_limit

/-- Exception or value reaching the worker's try block (queue.py lines
239-256) after the first-completed race of job task and monitor task. -/
inductive RawOutcome (α : Type) where
  | bodyDone (r : JobResult α)
  | durationTimeout
  | heartbeatMiss
deriving DecidableEq

/-- Resolution of the race on queue.py lines 236-256: a heartbeat miss can
only fire when a monitor task exists (line 221/237), a deadline timeout
only when run_job applied a wait_for (line 227); when both fire the
environment decides which reaches the worker first (lines 245-253 give the
monitor priority when both are already done); otherwise the body's own
result or exception surfaces through await job_task. -/
def raceOutcome (req : JobRequest α) (env : JobEnv α) : RawOutcome α :=
  let hbMiss := createsMonitor req && env.missesHeartbeat
  let dlTimeout := appliesDeadline req && env.exceedsLimit
  if hbMiss && dlTimeout then
    if env.missFirst then .heartbeatMiss else .durationTimeout
  else if hbMiss then .heartbeatMiss
  else if dlTimeout then .durationTimeout
  else .bodyDone env.body

/-- Message of the TimeoutError re-raised by run_job (queue.py lines
230-233). -/
def durationLimitMsg (dl : Option ℚ) : String :=
  "job exceeded duration limit of " ++ toString (dl.getD 0) ++ "s"

/-- Embedding of the outcome classification on queue.py lines 257-269:
except TimeoutError increments timed_out, except HeartbeatMissed
increments heartbeat_missed, except Exception increments failed, the else
branch increments completed.  Each failure branch calls
Future.set_exception unconditionally; only the success branch guards with
request.future.done() (line 268).  Returns the new metrics, the future
state, the number of set_result/set_exception calls made, and the
exception (if any) escaping the handler and killing the worker task. -/
def classifyOutcome (req : JobRequest α) (out : RawOutcome α)
    (m : WorkQueueMetrics) :
    WorkQueueMetrics × FutureState α × Nat × Option PyExc :=
  match out with
  | .durationTimeout =>
    let r := setFutureExc req.future (.timeoutError (durationLimitMsg req.duration_limit))
    ({ m with timed_out := m.timed_out + 1 }, r.1, 1, r.2)
  | .heartbeatMiss =>
    let r := setFutureExc req.future (.heartbeatMissed "Heartbeat not received within interval")
    ({ m with heartbeat_missed := m.heartbeat_missed + 1 }, r.1, 1, r.2)
  | .bodyDone (.raises e) =>
    match e with
    | .timeoutError s =>
      let r := setFutureExc req.future (.timeoutError s)
      ({ m with timed_out := m.timed_out + 1 }, r.1, 1, r.2)
    | .heartbeatMissed s =>
      let r := setFutureExc req.future (.heartbeatMissed s)
      ({ m with heartbeat_missed := m.heartbeat_missed + 1 }, r.1, 1, r.2)
    | e =>
      let r := setFutureExc req.future e
      ({ m with failed := m.failed + 1 }, r.1, 1, r.2)
  | .bodyDone (.value v) =>
    let m2 := { m with completed := m.completed + 1 }
    if req.future.isSome then (m2, req.future, 0, none)
    else (m2, some (.result v), 1, none)

/-- Observable result of the worker-loop body for one dequeued request. -/
structure StepResult (α : Type) where
  metrics : WorkQueueMetrics
  future : FutureState α
  bodyInvoked : Bool
  monitorCreated : Bool
  deadlineApplied : Bool
  setCalls : Nat
  workerExc : Option PyExc
  inFlight : Bool
deriving DecidableEq

/-- Embedding of queue.py lines 220-277: the part of the worker-loop body
after the sensor gate passes.  started is incremented (line 220), the job
closure is invoked (line 224), the monitor/deadline supervision race runs
and the outcome is classified. -/
def runGatedJob (req : JobRequest α) (env : JobEnv α)
    (m : WorkQueueMetrics) : StepResult α :=
  let m1 := { m with started := m.started + 1 }
  let r := classifyOutcome req (raceOutcome req env) m1
  { metrics := r.1, future := r.2.1, bodyInvoked := true,
    monitorCreated := createsMonitor req,
    deadlineApplied := appliesDeadline req,
    setCalls := r.2.2.1, workerExc := r.2.2.2, inFlight := false }

/-- Embedding of the full worker-loop body for one request (queue.py lines
212-277): the sensor gate runs first when a policy is configured; a
SensorLimitExceeded abort increments failed and resolves the future with
the abort (lines 215-219) without invoking the body; when the gate never
returns within fuel the request is still in flight (throttling); otherwise
the gated job part runs. -/
def processRequest (policy : Option SensorPolicy)
    (reads : Nat → Option SensorSnapshot) (fuel : Nat)
    (req : JobRequest α) (env : JobEnv α)
    (m : WorkQueueMetrics) : StepResult α :=
  match policy with
  | none => runGatedJob req env m
  | some p =>
    let run := p.enforce reads fuel m
    match run.outcome with
    | none =>
      { metrics := run.metrics, future := req.future, bodyInvoked := false,
        monitorCreated := false, deadlineApplied := false, setCalls := 0,
        workerExc := none, inFlight := true }
    | some .passed => runGatedJob req env run.metrics
    | some .aborted =>
      let r := setFutureExc req.future
        (.sensorLimitExceeded "Sensor thresholds exceeded; stopping queued job")
      { metrics := { run.metrics with failed := run.metrics.failed + 1 },
        future := r.1, bodyInvoked := false, monitorCreated := false,
        deadlineApplied := false, setCalls := 1, workerExc := r.2,
        inFlight := false }

/-- Result of WorkQueue.enqueue (queue.py lines 186-205): the metrics
after the call, the state of the returned future, and whether the request
was admitted to the bounded queue. -/
structure EnqueueResult (α : Type) where
  metrics : WorkQueueMetrics
  future : FutureState α
  admitted : Bool
deriving DecidableEq

/-- Embedding of asyncio.Queue.full(): put_nowait raises QueueFull iff the
queue is bounded (maxsize positive) and holds at least maxsize items. -/
def queueIsFull (max_queue_size qsize : Nat) : Bool :=
  decide (0 < max_queue_size) && decide (max_queue_size ≤ qsize)

/-- Embedding of WorkQueue.enqueue (queue.py lines 186-205): a fresh
pending future is created; put_nowait either admits the request or raises
QueueFull, in which case queue_rejections is incremented and the future is
resolved with the QueueFull exception (lines 202-204); the future is
returned in both cases and no exception escapes. -/
def enqueue (α : Type) (max_queue_size qsize : Nat)
    (m : WorkQueueMetrics) : EnqueueResult α :=
  if queueIsFull max_queue_size qsize then
    { metrics := { m with queue_rejections := m.queue_rejections + 1 },
      future := some (.exc (.queueFull "work queue is full")),
      admitted := false }
  else
    { metrics := m, future := none, admitted := true }

/-- Cell of the worker queue (queue.py line 156): a job request together
with the environment resolving its races and the sensor-read sequence and
fuel for its gate, or the None sentinel injected by stop (line 182). -/
inductive QCell (α : Type) where
  | sentinel
  | job (req : JobRequest α) (env : JobEnv α)
      (reads : Nat → Option SensorSnapshot) (fuel : Nat)

/-- Future state carried by a queue cell (none for the sentinel). -/
def QCell.futureOf : QCell α → Option (FutureState α)
  | .sentinel => none
  | .job req _ _ _ => some req.future

/-- Result of a single worker draining the queue after stop: the metrics,
the final future state of each request the worker dequeued (in dequeue
order), and the queue cells it never consumed. -/
structure WorkerRun (α : Type) where
  metrics : WorkQueueMetrics
  processed : List (FutureState α)
  leftover : List (QCell α)

/-- Embedding of WorkQueue._worker_loop (queue.py lines 207-277) for one
worker: stopAfter counts how many more times the loop head's check of
self._stopped (line 208) will find the flag clear — stop() sets the flag
(line 180) before injecting sentinels, so the worker exits at the first
loop head it reaches after stop, without popping.  A popped sentinel makes
the worker break (lines 210-211), leaving the rest of the queue
unconsumed.  A worker stuck in sensor throttling or killed by an escaping
exception stops consuming as well. -/
def workerLoopRun (policy : Option SensorPolicy) :
    Nat → List (QCell α) → WorkQueueMetrics → WorkerRun α
  | _, [], m => ⟨m, [], []⟩
  | 0, cells, m => ⟨m, [], cells⟩
  | _ + 1, .sentinel :: rest, m => ⟨m, [], rest⟩
  | stopAfter + 1, .job req env reads fuel :: rest, m =>
    let out := processRequest policy reads fuel req env m
    if out.inFlight || out.workerExc.isSome then
      ⟨out.metrics, [out.future], rest⟩
    else
      let r := workerLoopRun policy stopAfter rest out.metrics
      ⟨r.metrics, out.future :: r.processed, r.leftover⟩

/-- Metrics-relevant event of a queue run: an enqueue bouncing off a full
queue (queue.py lines 202-204), or a worker handling one request. -/
inductive RunEvent (α : Type) where
  | reject
  | work (req : JobRequest α) (env : JobEnv α)
      (reads : Nat → Option SensorSnapshot) (fuel : Nat)

/-- Metrics change of one run event. -/
def stepMetrics (policy : Option SensorPolicy) (m : WorkQueueMetrics) :
    RunEvent α → WorkQueueMetrics
  | .reject => { m with queue_rejections := m.queue_rejections + 1 }
  | .work req env reads fuel => (processRequest policy reads fuel req env m).metrics

/-- Metrics after a sequence of queue events. -/
def runMetrics (policy : Option SensorPolicy) (events : List (RunEvent α))
    (m : WorkQueueMetrics) : WorkQueueMetrics :=
  events.foldl (stepMetrics policy) m

/-! Helper lemmas shared by the claim theorems. -/

/-- Helper: the enforce loop touches only sensor_throttles and
sensor_aborts, and increments sensor_aborts exactly when it aborts. -/
theorem enforceLoop_counters (p : SensorPolicy)
    (reads : Nat → Option SensorSnapshot) :
    ∀ (fuel k : Nat) (m : WorkQueueMetrics) (slept : ℚ),
      (p.enforceLoop reads k fuel m slept).metrics.started = m.started
      ∧ (p.enforceLoop reads k fuel m slept).metrics.completed = m.completed
      ∧ (p.enforceLoop reads k fuel m slept).metrics.failed = m.failed
      ∧ (p.enforceLoop reads k fuel m slept).metrics.timed_out = m.timed_out
      ∧ (p.enforceLoop reads k fuel m slept).metrics.heartbeat_missed
          = m.heartbeat_missed
      ∧ (p.enforceLoop reads k fuel m slept).metrics.queue_rejections
          = m.queue_rejections
      ∧ (p.enforceLoop reads k fuel m slept).metrics.sensor_aborts
          = m.sensor_aborts
            + (if (p.enforceLoop reads k fuel m slept).outcome
                  = some .aborted then 1 else 0) := by
  intro fuel
  induction fuel with
  | zero =>
    intro k m slept
    simp [SensorPolicy.enforceLoop]
  | succ f ih =>
    intro k m slept
    rw [SensorPolicy.enforceLoop]
    by_cases hv : p.hasViolation (reads k) = false
    · simp [hv]
    · by_cases hs : p.stop_on_violation
      · simp [hv, hs]
      · simpa [hv, hs] using ih (k + 1)
          { m with sensor_throttles := m.sensor_throttles + 1 }
          (slept + p.cooldown_seconds)

/-- Helper: the counter facts of enforceLoop_counters lifted to enforce. -/
theorem enforce_counters (p : SensorPolicy)
    (reads : Nat → Option SensorSnapshot) (fuel : Nat)
    (m : WorkQueueMetrics) :
    (p.enforce reads fuel m).metrics.started = m.started
    ∧ (p.enforce reads fuel m).metrics.completed = m.completed
    ∧ (p.enforce reads fuel m).metrics.failed = m.failed
    ∧ (p.enforce reads fuel m).metrics.timed_out = m.timed_out
    ∧ (p.enforce reads fuel m).metrics.heartbeat_missed = m.heartbeat_missed
    ∧ (p.enforce reads fuel m).metrics.queue_rejections = m.queue_rejections
    ∧ (p.enforce reads fuel m).metrics.sensor_aborts
        = m.sensor_aborts
          + (if (p.enforce reads fuel m).outcome = some .aborted
             then 1 else 0) := by
  by_cases hr : p.hasReader
  · simpa [SensorPolicy.enforce, hr] using enforceLoop_counters p reads fuel 0 m 0
  · simp [SensorPolicy.enforce, hr]

/-- Helper: outcome classification keeps started and the sensor and
rejection counters, and adds exactly one to the sum of the four
per-outcome counters. -/
theorem classifyOutcome_counters (req : JobRequest α) (out : RawOutcome α)
    (m : WorkQueueMetrics) :
    (classifyOutcome req out m).1.started = m.started
    ∧ (classifyOutcome req out m).1.sensor_aborts = m.sensor_aborts
    ∧ (classifyOutcome req out m).1.sensor_throttles = m.sensor_throttles
    ∧ (classifyOutcome req out m).1.queue_rejections = m.queue_rejections
    ∧ (classifyOutcome req out m).1.completed
        + (classifyOutcome req out m).1.timed_out
        + (classifyOutcome req out m).1.heartbeat_missed
        + (classifyOutcome req out m).1.failed
      = m.completed + m.timed_out + m.heartbeat_missed + m.failed + 1 := by
  rcases out with r | _ | _
  · rcases r with v | e
    · by_cases h : req.future.isSome <;> simp [classifyOutcome, h] <;> omega
    · cases e <;> simp [classifyOutcome] <;> omega
  · simp [classifyOutcome]; omega
  · simp [classifyOutcome]; omega

/-- Helper: when the first k snapshots violate and the next one does not,
a non-stopping policy throttles k times, sleeps k cooldowns, and passes. -/
theorem enforceLoop_pass (p : SensorPolicy)
    (reads : Nat → Option SensorSnapshot) :
    ∀ (k k0 fuel : Nat) (m : WorkQueueMetrics) (slept : ℚ),
      p.stop_on_violation = false →
      (∀ j, j < k → p.hasViolation (reads (k0 + j)) = true) →
      p.hasViolation (reads (k0 + k)) = false →
      k < fuel →
      p.enforceLoop reads k0 fuel m slept =
        ⟨some .passed,
         { m with sensor_throttles := m.sensor_throttles + k },
         slept + k * p.cooldown_seconds⟩ := by
  intro k
  induction k with
  | zero =>
    intro k0 fuel m slept hstop _hprev hk hfuel
    obtain ⟨f, rfl⟩ : ∃ f, fuel = f + 1 := ⟨fuel - 1, by omega⟩
    rw [Nat.add_zero] at hk
    cases m
    rw [SensorPolicy.enforceLoop]
    simp [hk]
  | succ j ih =>
    intro k0 fuel m slept hstop hprev hk hfuel
    obtain ⟨f, rfl⟩ : ∃ f, fuel = f + 1 := ⟨fuel - 1, by omega⟩
    have h0 : p.hasViolation (reads k0) = true := by
      simpa using hprev 0 (by omega)
    rw [SensorPolicy.enforceLoop]
    rw [if_neg (by simp [h0]), if_neg (by simp [hstop])]
    rw [ih (k0 + 1) f _ _ hstop
      (fun i hi => by
        rw [show k0 + 1 + i = k0 + (i + 1) from by omega]
        exact hprev (i + 1) (by omega))
      (by rw [show k0 + 1 + j = k0 + (j + 1) from by omega]; exact hk)
      (by omega)]
    cases m
    simp [WorkQueueMetrics.mk.injEq]
    constructor
    · omega
    · ring

/-- Helper: outcome classification reads only the future and the duration
limit of the request. -/
theorem classifyOutcome_congr (req req2 : JobRequest α) (out : RawOutcome α)
    (m : WorkQueueMetrics) (h1 : req.future = req2.future)
    (h2 : durationLimitMsg req.duration_limit
            = durationLimitMsg req2.duration_limit) :
    classifyOutcome req out m = classifyOutcome req2 out m := by
  rcases out with r | _ | _
  · rcases r with v | e
    · simp [classifyOutcome, h1]
    · cases e <;> simp [classifyOutcome, h1]
  · simp [classifyOutcome, h1, h2]
  · simp [classifyOutcome, h1]

/-- Helper: the gated job run reads the request only through its future,
its truthy duration limit, and its truthy heartbeat interval. -/
theorem runGatedJob_congr (req req2 : JobRequest α) (env : JobEnv α)
    (m : WorkQueueMetrics) (h1 : req.future = req2.future)
    (h2 : durationLimitMsg req.duration_limit
            = durationLimitMsg req2.duration_limit)
    (h3 : createsMonitor req = createsMonitor req2)
    (h4 : appliesDeadline req = appliesDeadline req2) :
    runGatedJob req env m = runGatedJob req2 env m := by
  have hr : raceOutcome req env = raceOutcome req2 env := by
    simp [raceOutcome, h3, h4]
  simp only [runGatedJob, hr, h3, h4,
    classifyOutcome_congr req req2 (raceOutcome req2 env) _ h1 h2]

/-- Helper: the whole per-request worker body reads the request only
through its future, its truthy duration limit, and its truthy heartbeat
interval. -/
theorem processRequest_congr (policy : Option SensorPolicy)
    (reads : Nat → Option SensorSnapshot) (fuel : Nat)
    (req req2 : JobRequest α) (env : JobEnv α) (m : WorkQueueMetrics)
    (h1 : req.future = req2.future)
    (h2 : durationLimitMsg req.duration_limit
            = durationLimitMsg req2.duration_limit)
    (h3 : createsMonitor req = createsMonitor req2)
    (h4 : appliesDeadline req = appliesDeadline req2) :
    processRequest policy reads fuel req env m
      = processRequest policy reads fuel req2 env m := by
  cases policy with
  | none => exact runGatedJob_congr req req2 env m h1 h2 h3 h4
  | some p =>
    simp only [processRequest]
    rcases ho : (p.enforce reads fuel m).outcome with _ | o
    · simp [ho, h1]
    · cases o
      · simp only [ho]
        exact runGatedJob_congr req req2 env _ h1 h2 h3 h4
      · simp [ho, h1]

/-- Helper: no monitor task is created when the heartbeat interval is not
truthy, on any path through the worker body. -/
theorem processRequest_no_monitor (policy : Option SensorPolicy)
    (reads : Nat → Option SensorSnapshot) (fuel : Nat)
    (req : JobRequest α) (env : JobEnv α) (m : WorkQueueMetrics)
    (h : createsMonitor req = false) :
    (processRequest policy reads fuel req env m).monitorCreated = false := by
  cases policy with
  | none => simp [processRequest, runGatedJob, h]
  | some p =>
    simp only [processRequest]
    rcases ho : (p.enforce reads fuel m).outcome with _ | o
    · simp [ho]
    · cases o <;> simp [ho, runGatedJob, h]

/-- Helper: no deadline is applied when the duration limit is not truthy,
on any path through the worker body. -/
theorem processRequest_no_deadline (policy : Option SensorPolicy)
    (reads : Nat → Option SensorSnapshot) (fuel : Nat)
    (req : JobRequest α) (env : JobEnv α) (m : WorkQueueMetrics)
    (h : appliesDeadline req = false) :
    (processRequest policy reads fuel req env m).deadlineApplied = false := by
  cases policy with
  | none => simp [processRequest, runGatedJob, h]
  | some p =>
    simp only [processRequest]
    rcases ho : (p.enforce reads fuel m).outcome with _ | o
    · simp [ho]
    · cases o <;> simp [ho, runGatedJob, h]

/-! Claim theorems. -/

/-- C5: SensorPolicy.enforce returns with no effect when no reader is
configured; a violation exists iff at least one known reading exceeds its
bound (temperature strictly above max_temperature_c or battery strictly
below min_battery_percent; a None snapshot or missing field never
violates); enforce returns at the first non-violating snapshot — for any
stop_on_violation value a safe first snapshot makes it return at once with
no effect, and when stop_on_violation is false it passes at the first safe
snapshot having incremented sensor_throttles and slept cooldown_seconds
once per violating snapshot before it; with stop_on_violation it
increments sensor_aborts and raises at the first violating snapshot, so an
aborting policy either returns at read 0 or aborts at read 0. -/
theorem sensorPolicy_enforce_spec :
    (∀ (p : SensorPolicy) (reads : Nat → Option SensorSnapshot)
        (fuel : Nat) (m : WorkQueueMetrics), p.hasReader = false →
        p.enforce reads fuel m = ⟨some .passed, m, 0⟩)
    ∧ (∀ p : SensorPolicy, p.hasViolation none = false)
    ∧ (∀ (p : SensorPolicy) (s : SensorSnapshot),
        p.hasViolation (some s) = true ↔
          ((∃ mx t, p.max_temperature_c = some mx
              ∧ s.temperature_c = some t ∧ mx < t)
           ∨ (∃ mn b, p.min_battery_percent = some mn
              ∧ s.battery_percent = some b ∧ b < mn)))
    ∧ (∀ (p : SensorPolicy) (reads : Nat → Option SensorSnapshot)
        (fuel k : Nat) (m : WorkQueueMetrics),
        p.hasReader = true → p.stop_on_violation = false →
        (∀ j, j < k → p.hasViolation (reads j) = true) →
        p.hasViolation (reads k) = false → k < fuel →
        p.enforce reads fuel m =
          ⟨some .passed,
           { m with sensor_throttles := m.sensor_throttles + k },
           k * p.cooldown_seconds⟩)
    ∧ (∀ (p : SensorPolicy) (reads : Nat → Option SensorSnapshot)
        (fuel : Nat) (m : WorkQueueMetrics),
        p.hasReader = true → p.stop_on_violation = true → 0 < fuel →
        p.hasViolation (reads 0) = true →
        p.enforce reads fuel m =
          ⟨some .aborted,
           { m with sensor_aborts := m.sensor_aborts + 1 }, 0⟩)
    ∧ (∀ (p : SensorPolicy) (reads : Nat → Option SensorSnapshot)
        (fuel : Nat) (m : WorkQueueMetrics),
        p.hasReader = true → 0 < fuel →
        p.hasViolation (reads 0) = false →
        p.enforce reads fuel m = ⟨some .passed, m, 0⟩) := by
  refine ⟨?_, ?_, ?_, ?_, ?_, ?_⟩
  · intro p reads fuel m h
    simp [SensorPolicy.enforce, h]
  · intro p
    simp [SensorPolicy.hasViolation]
  · intro p s
    cases hmx : p.max_temperature_c <;> cases ht : s.temperature_c <;>
      cases hmn : p.min_battery_percent <;> cases hb : s.battery_percent <;>
      simp [SensorPolicy.hasViolation, hmx, ht, hmn, hb]
  · intro p reads fuel k m hr hstop hprev hk hfuel
    rw [SensorPolicy.enforce, if_pos hr,
      enforceLoop_pass p reads k 0 fuel m 0 hstop (by simpa using hprev)
        (by simpa using hk) hfuel]
    simp
  · intro p reads fuel m hr hstop hfuel hv
    obtain ⟨f, rfl⟩ : ∃ f, fuel = f + 1 := ⟨fuel - 1, by omega⟩
    rw [SensorPolicy.enforce, if_pos hr, SensorPolicy.enforceLoop]
    simp [hv, hstop]
  · intro p reads fuel m hr hfuel hv
    obtain ⟨f, rfl⟩ : ∃ f, fuel = f + 1 := ⟨fuel - 1, by omega⟩
    rw [SensorPolicy.enforce, if_pos hr, SensorPolicy.enforceLoop]
    simp [hv]

/-- Witness for C5: a throttling policy with max temperature 70 and
cooldown 1 over readings 90, 90, 65 throttles twice, sleeps 2, and
passes; an aborting policy with max temperature 80 over a safe reading of
65 returns at once with no effect. -/
theorem sensorPolicy_enforce_spec_witness :
    SensorPolicy.enforce
        { hasReader := true, max_temperature_c := some 70,
          cooldown_seconds := 1 }
        (fun k => if k < 2 then some { temperature_c := some 90 }
                  else some { temperature_c := some 65 })
        5 WorkQueueMetrics.init
      = ⟨some .passed, { WorkQueueMetrics.init with sensor_throttles := 2 },
         2⟩
    ∧ SensorPolicy.enforce
        { hasReader := true, max_temperature_c := some 80,
          stop_on_violation := true }
        (fun _ => some { temperature_c := some 65 })
        1 WorkQueueMetrics.init
      = ⟨some .passed, WorkQueueMetrics.init, 0⟩ := by
  constructor
  · rw [sensorPolicy_enforce_spec.2.2.2.1
      { hasReader := true, max_temperature_c := some 70,
        cooldown_seconds := 1 }
      (fun k => if k < 2 then some { temperature_c := some 90 }
                else some { temperature_c := some 65 })
      5 2 WorkQueueMetrics.init rfl rfl (by decide) (by decide) (by omega)]
    simp [WorkQueueMetrics.init]
  · exact sensorPolicy_enforce_spec.2.2.2.2.2
      { hasReader := true, max_temperature_c := some 80,
        stop_on_violation := true }
      (fun _ => some { temperature_c := some 65 })
      1 WorkQueueMetrics.init rfl (by omega) (by decide)

/-- C6: a freshly constructed Heartbeat is armed (the constructor pings);
ping is idempotent and keeps an armed heartbeat armed; the monitor's first
wait consumes the construction arming and cannot miss; monitoring from the
waiting state fails exactly at the first wait window with no rearm in
time; over a finite trace whose every window rearms, the monitor is still
running (it terminates only via the heartbeat-missed failure or external
cancellation). -/
theorem heartbeat_spec :
    (∀ i : ℚ, (Heartbeat.init i).eventSet = true)
    ∧ (∀ h : Heartbeat, h.ping.ping = h.ping)
    ∧ (∀ i : ℚ, (Heartbeat.init i).ping = Heartbeat.init i)
    ∧ (∀ (i : ℚ) (w : Bool) (ws : List Bool),
        (Heartbeat.init i).monitorRun (w :: ws)
          = Option.map Nat.succ (Heartbeat.monitorSteps false ws))
    ∧ (∀ (ws : List Bool) (k : Nat),
        Heartbeat.monitorSteps false ws = some k ↔
          ws.take k = List.replicate k true ∧ ws.get? k = some false)
    ∧ (∀ ws : List Bool,
        Heartbeat.monitorSteps false ws = none ↔ ∀ w ∈ ws, w = true) := by
  refine ⟨fun _ => rfl, fun _ => rfl, fun _ => rfl, ?_, ?_, ?_⟩
  · intro i w ws
    simp [Heartbeat.monitorRun, Heartbeat.init, Heartbeat.ping,
      Heartbeat.monitorSteps]
  · intro ws
    induction ws with
    | nil =>
      intro k
      simp [Heartbeat.monitorSteps]
    | cons w ws ih =>
      intro k
      cases w
      · cases k with
        | zero => simp [Heartbeat.monitorSteps]
        | succ j => simp [Heartbeat.monitorSteps, List.replicate_succ]
      · cases k with
        | zero => simp [Heartbeat.monitorSteps]
        | succ j =>
          simpa [Heartbeat.monitorSteps, List.replicate_succ] using ih j
  · intro ws
    induction ws with
    | nil => simp [Heartbeat.monitorSteps]
    | cons w ws ih =>
      cases w
      · simp [Heartbeat.monitorSteps]
      · simpa [Heartbeat.monitorSteps] using ih

/-- Witness for C6: applies the first-miss characterization to the trace
with a rearm in window 0 and none in window 1. -/
theorem heartbeat_spec_witness :
    Heartbeat.monitorSteps false [true, false] = some 1 :=
  (heartbeat_spec.2.2.2.2.1 [true, false] 1).mpr (by decide)

/-- C3: an enqueue against a queue already holding max_queue_size requests
returns normally with a handle already resolved with the queue-full
failure, increments queue_rejections by one, and changes no other counter
(the conclusion is a total equation: nothing is raised and the
non-suspending put_nowait path is the only one taken). -/
theorem enqueue_full_rejects (α : Type) (max_queue_size qsize : Nat)
    (m : WorkQueueMetrics) (hpos : 0 < max_queue_size)
    (hfull : qsize = max_queue_size) :
    enqueue α max_queue_size qsize m =
      { metrics := { m with queue_rejections := m.queue_rejections + 1 },
        future := some (.exc (.queueFull "work queue is full")),
        admitted := false } := by
  subst hfull
  simp [enqueue, queueIsFull, hpos]

/-- Witness for C3 at max_queue_size 2 with 2 queued requests. -/
theorem enqueue_full_rejects_witness :
    enqueue Nat 2 2 WorkQueueMetrics.init =
      { metrics := { WorkQueueMetrics.init with queue_rejections := 1 },
        future := some (.exc (.queueFull "work queue is full")),
        admitted := false } := by
  rw [enqueue_full_rejects Nat 2 2 WorkQueueMetrics.init (by decide) rfl]
  decide

/-- C4: a request whose sensor gate aborts has failed (and sensor_aborts)
incremented by one, its pending handle resolved with the
sensor-limit-exceeded failure, started and completed unchanged, and its
job body never invoked; the worker survives. -/
theorem sensor_abort_path (p : SensorPolicy)
    (reads : Nat → Option SensorSnapshot) (fuel : Nat)
    (req : JobRequest α) (env : JobEnv α) (m : WorkQueueMetrics)
    (habort : (p.enforce reads fuel m).outcome = some .aborted)
    (hfut : req.future = none) :
    (processRequest (some p) reads fuel req env m).metrics.failed
        = m.failed + 1
    ∧ (processRequest (some p) reads fuel req env m).metrics.sensor_aborts
        = m.sensor_aborts + 1
    ∧ (processRequest (some p) reads fuel req env m).metrics.started
        = m.started
    ∧ (processRequest (some p) reads fuel req env m).metrics.completed
        = m.completed
    ∧ (processRequest (some p) reads fuel req env m).future
        = some (.exc (.sensorLimitExceeded
            "Sensor thresholds exceeded; stopping queued job"))
    ∧ (processRequest (some p) reads fuel req env m).bodyInvoked = false
    ∧ (processRequest (some p) reads fuel req env m).workerExc = none := by
  have hc := enforce_counters p reads fuel m
  rw [habort] at hc
  simp only [reduceIte] at hc
  obtain ⟨hst, hco, hfa, _, _, _, hab⟩ := hc
  refine ⟨?_, ?_, ?_, ?_, ?_, ?_, ?_⟩ <;>
    simp [processRequest, habort, hfut, setFutureExc, hst, hco, hfa, hab]

/-- Witness for C4: an always-hot reader with stop_on_violation aborts the
first queued job. -/
theorem sensor_abort_path_witness :
    (processRequest (α := Nat)
        (some { hasReader := true, max_temperature_c := some 80,
                stop_on_violation := true })
        (fun _ => some { temperature_c := some 100 }) 1
        { } { body := .value 0 } WorkQueueMetrics.init).metrics.failed = 1
    ∧ (processRequest (α := Nat)
        (some { hasReader := true, max_temperature_c := some 80,
                stop_on_violation := true })
        (fun _ => some { temperature_c := some 100 }) 1
        { } { body := .value 0 } WorkQueueMetrics.init).metrics.started = 0
    ∧ (processRequest (α := Nat)
        (some { hasReader := true, max_temperature_c := some 80,
                stop_on_violation := true })
        (fun _ => some { temperature_c := some 100 }) 1
        { } { body := .value 0 } WorkQueueMetrics.init).bodyInvoked
        = false := by
  have h := sensor_abort_path
    { hasReader := true, max_temperature_c := some 80,
      stop_on_violation := true }
    (fun _ => some { temperature_c := some 100 }) 1
    ({ } : JobRequest Nat) { body := .value 0 } WorkQueueMetrics.init
    (by decide) rfl
  exact ⟨h.1, h.2.2.1, h.2.2.2.2.2.1⟩

/-- C9: a request with duration_limit 0 or heartbeat_interval 0 is handled
exactly like one with the field absent — the worker tests truthiness, so
no deadline is applied and no heartbeat monitor is created, and every
observable of the worker body is identical. -/
theorem zero_limits_like_absent (α : Type) :
    (∀ (policy : Option SensorPolicy) (reads : Nat → Option SensorSnapshot)
        (fuel : Nat) (dl : Option ℚ) (fut : FutureState α)
        (env : JobEnv α) (m : WorkQueueMetrics),
        processRequest policy reads fuel
            { duration_limit := dl, heartbeat_interval := some 0,
              future := fut } env m
          = processRequest policy reads fuel
            { duration_limit := dl, heartbeat_interval := none,
              future := fut } env m
        ∧ (processRequest policy reads fuel
            { duration_limit := dl, heartbeat_interval := some 0,
              future := fut } env m).monitorCreated = false)
    ∧ (∀ (policy : Option SensorPolicy) (reads : Nat → Option SensorSnapshot)
        (fuel : Nat) (hb : Option ℚ) (fut : FutureState α)
        (env : JobEnv α) (m : WorkQueueMetrics),
        processRequest policy reads fuel
            { duration_limit := some 0, heartbeat_interval := hb,
              future := fut } env m
          = processRequest policy reads fuel
            { duration_limit := none, heartbeat_interval := hb,
              future := fut } env m
        ∧ (processRequest policy reads fuel
            { duration_limit := some 0, heartbeat_interval := hb,
              future := fut } env m).deadlineApplied = false) := by
  constructor
  · intro policy reads fuel dl fut env m
    refine ⟨processRequest_congr policy reads fuel _ _ env m rfl rfl
      (by simp [createsMonitor, truthy]) rfl, ?_⟩
    exact processRequest_no_monitor policy reads fuel _ env m
      (by simp [createsMonitor, truthy])
  · intro policy reads fuel hb fut env m
    refine ⟨processRequest_congr policy reads fuel _ _ env m rfl
      (by simp [durationLimitMsg]) rfl
      (by simp [appliesDeadline, truthy]), ?_⟩
    exact processRequest_no_deadline policy reads fuel _ env m
      (by simp [appliesDeadline, truthy])

/-- C10: a job body that itself raises asyncio.TimeoutError is classified
as a timeout even with no duration limit set: timed_out is incremented,
failed is not, and the pending handle is resolved with that same error. -/
theorem body_timeout_spec (req : JobRequest α) (env : JobEnv α)
    (m : WorkQueueMetrics) (s : String)
    (_hdl : req.duration_limit = none)
    (hfut : req.future = none)
    (hrace : raceOutcome req env = .bodyDone (.raises (.timeoutError s))) :
    (runGatedJob req env m).metrics.timed_out = m.timed_out + 1
    ∧ (runGatedJob req env m).metrics.failed = m.failed
    ∧ (runGatedJob req env m).metrics.completed = m.completed
    ∧ (runGatedJob req env m).future = some (.exc (.timeoutError s))
    ∧ (runGatedJob req env m).workerExc = none := by
  refine ⟨?_, ?_, ?_, ?_, ?_⟩ <;>
    simp [runGatedJob, hrace, classifyOutcome, hfut, setFutureExc]

/-- Witness for C10: a body raising TimeoutError with no limits set. -/
theorem body_timeout_spec_witness :
    (runGatedJob (α := Nat) { } { body := .raises (.timeoutError "boom") }
        WorkQueueMetrics.init).metrics.timed_out = 1
    ∧ (runGatedJob (α := Nat) { } { body := .raises (.timeoutError "boom") }
        WorkQueueMetrics.init).metrics.failed = 0
    ∧ (runGatedJob (α := Nat) { } { body := .raises (.timeoutError "boom") }
        WorkQueueMetrics.init).future
        = some (.exc (.timeoutError "boom")) := by
  have h := body_timeout_spec ({ } : JobRequest Nat)
    { body := .raises (.timeoutError "boom") } WorkQueueMetrics.init "boom"
    rfl rfl (by decide)
  exact ⟨h.1, h.2.1, h.2.2.2.1⟩

/-- C8: any failure of the job body other than a timeout or a heartbeat
miss is caught by the worker, counted in failed, and delivered through the
pending handle; no exception escapes the loop body, and a worker that just
handled such a failure goes on to pop the next queue cell. -/
theorem job_failure_recovers (req : JobRequest α) (env : JobEnv α)
    (m : WorkQueueMetrics) (e : PyExc)
    (hfut : req.future = none)
    (hrace : raceOutcome req env = .bodyDone (.raises e))
    (ht : ∀ s, e ≠ .timeoutError s)
    (hh : ∀ s, e ≠ .heartbeatMissed s) :
    (runGatedJob req env m).metrics.failed = m.failed + 1
    ∧ (runGatedJob req env m).metrics.started = m.started + 1
    ∧ (runGatedJob req env m).future = some (.exc e)
    ∧ (runGatedJob req env m).workerExc = none
    ∧ (∀ (reads : Nat → Option SensorSnapshot) (fuel stopA : Nat)
        (rest : List (QCell α)),
        (workerLoopRun none (stopA + 1 + 1)
            (.job req env reads fuel :: .sentinel :: rest) m).leftover
          = rest) := by
  cases e with
  | timeoutError s => exact absurd rfl (ht s)
  | heartbeatMissed s => exact absurd rfl (hh s)
  | sensorLimitExceeded s =>
    refine ⟨?_, ?_, ?_, ?_, ?_⟩ <;>
      simp [workerLoopRun, processRequest, runGatedJob, hrace,
        classifyOutcome, hfut, setFutureExc]
  | queueFull s =>
    refine ⟨?_, ?_, ?_, ?_, ?_⟩ <;>
      simp [workerLoopRun, processRequest, runGatedJob, hrace,
        classifyOutcome, hfut, setFutureExc]
  | invalidStateError s =>
    refine ⟨?_, ?_, ?_, ?_, ?_⟩ <;>
      simp [workerLoopRun, processRequest, runGatedJob, hrace,
        classifyOutcome, hfut, setFutureExc]
  | otherExc n s =>
    refine ⟨?_, ?_, ?_, ?_, ?_⟩ <;>
      simp [workerLoopRun, processRequest, runGatedJob, hrace,
        classifyOutcome, hfut, setFutureExc]

/-- Witness for C8: a body raising ValueError is absorbed and the worker
pops the next cell. -/
theorem job_failure_recovers_witness :
    (runGatedJob (α := Nat) { }
        { body := .raises (.otherExc "ValueError" "boom") }
        WorkQueueMetrics.init).metrics.failed = 1
    ∧ (runGatedJob (α := Nat) { }
        { body := .raises (.otherExc "ValueError" "boom") }
        WorkQueueMetrics.init).workerExc = none
    ∧ (workerLoopRun (α := Nat) none 2
        [.job { } { body := .raises (.otherExc "ValueError" "boom") }
           (fun _ => none) 0,
         .sentinel]
        WorkQueueMetrics.init).leftover = [] := by
  have h := job_failure_recovers ({ } : JobRequest Nat)
    { body := .raises (.otherExc "ValueError" "boom") }
    WorkQueueMetrics.init (.otherExc "ValueError" "boom") rfl (by decide)
    (fun s hs => by cases hs) (fun s hs => by cases hs)
  exact ⟨h.1, h.2.2.2.1, h.2.2.2.2 (fun _ => none) 0 0 []⟩

/-- C1 counterexample: at a timeout outcome observed with the handle
already resolved (externally cancelled), the worker increments timed_out
but still attempts to resolve the handle again — set_exception is called
(setCalls is 1, not 0) and the resulting invalid-state error escapes,
contradicting the claim that the worker must not attempt re-resolution. -/
theorem resolved_handle_timeout_reattempts :
    (processRequest (α := Nat) none (fun _ => none) 0
        { duration_limit := some 1, future := some .cancelled }
        { body := .value 0, exceedsLimit := true }
        WorkQueueMetrics.init).metrics.timed_out = 1
    ∧ ¬ ((processRequest (α := Nat) none (fun _ => none) 0
        { duration_limit := some 1, future := some .cancelled }
        { body := .value 0, exceedsLimit := true }
        WorkQueueMetrics.init).setCalls = 0)
    ∧ (processRequest (α := Nat) none (fun _ => none) 0
        { duration_limit := some 1, future := some .cancelled }
        { body := .value 0, exceedsLimit := true }
        WorkQueueMetrics.init).workerExc
        = some (.invalidStateError "invalid state") := by decide

/-- C1 amended: only the value outcome is guarded by a done() check — on
a resolved handle it increments completed and makes no resolution call;
for the failure outcomes (timeout, heartbeat miss, job failure, sensor
abort) the worker increments the matching counter and then calls
set_exception unconditionally, which on a resolved handle leaves the
handle unchanged but raises an invalid-state error that escapes and
terminates the worker task. -/
theorem resolved_handle_guard_only_on_value (α : Type) :
    (∀ (req : JobRequest α) (env : JobEnv α) (m : WorkQueueMetrics) (v : α),
        req.future.isSome = true →
        raceOutcome req env = .bodyDone (.value v) →
        (runGatedJob req env m).metrics.completed = m.completed + 1
        ∧ (runGatedJob req env m).future = req.future
        ∧ (runGatedJob req env m).setCalls = 0
        ∧ (runGatedJob req env m).workerExc = none)
    ∧ (∀ (req : JobRequest α) (env : JobEnv α) (m : WorkQueueMetrics),
        req.future.isSome = true →
        raceOutcome req env = .durationTimeout →
        (runGatedJob req env m).metrics.timed_out = m.timed_out + 1
        ∧ (runGatedJob req env m).future = req.future
        ∧ (runGatedJob req env m).setCalls = 1
        ∧ (runGatedJob req env m).workerExc
            = some (.invalidStateError "invalid state"))
    ∧ (∀ (req : JobRequest α) (env : JobEnv α) (m : WorkQueueMetrics),
        req.future.isSome = true →
        raceOutcome req env = .heartbeatMiss →
        (runGatedJob req env m).metrics.heartbeat_missed
            = m.heartbeat_missed + 1
        ∧ (runGatedJob req env m).future = req.future
        ∧ (runGatedJob req env m).setCalls = 1
        ∧ (runGatedJob req env m).workerExc
            = some (.invalidStateError "invalid state"))
    ∧ (∀ (req : JobRequest α) (env : JobEnv α) (m : WorkQueueMetrics)
        (e : PyExc),
        req.future.isSome = true →
        raceOutcome req env = .bodyDone (.raises e) →
        (∀ s, e ≠ .timeoutError s) → (∀ s, e ≠ .heartbeatMissed s) →
        (runGatedJob req env m).metrics.failed = m.failed + 1
        ∧ (runGatedJob req env m).future = req.future
        ∧ (runGatedJob req env m).setCalls = 1
        ∧ (runGatedJob req env m).workerExc
            = some (.invalidStateError "invalid state"))
    ∧ (∀ (p : SensorPolicy) (reads : Nat → Option SensorSnapshot)
        (fuel : Nat) (req : JobRequest α) (env : JobEnv α)
        (m : WorkQueueMetrics),
        req.future.isSome = true →
        (p.enforce reads fuel m).outcome = some .aborted →
        (processRequest (some p) reads fuel req env m).metrics.failed
            = m.failed + 1
        ∧ (processRequest (some p) reads fuel req env m).future = req.future
        ∧ (processRequest (some p) reads fuel req env m).setCalls = 1
        ∧ (processRequest (some p) reads fuel req env m).workerExc
            = some (.invalidStateError "invalid state")) := by
  refine ⟨?_, ?_, ?_, ?_, ?_⟩
  · intro req env m v hfut hrace
    obtain ⟨fv, hfv⟩ := Option.isSome_iff_exists.mp hfut
    refine ⟨?_, ?_, ?_, ?_⟩ <;>
      simp [runGatedJob, hrace, classifyOutcome, hfv]
  · intro req env m hfut hrace
    obtain ⟨fv, hfv⟩ := Option.isSome_iff_exists.mp hfut
    refine ⟨?_, ?_, ?_, ?_⟩ <;>
      simp [runGatedJob, hrace, classifyOutcome, hfv, setFutureExc]
  · intro req env m hfut hrace
    obtain ⟨fv, hfv⟩ := Option.isSome_iff_exists.mp hfut
    refine ⟨?_, ?_, ?_, ?_⟩ <;>
      simp [runGatedJob, hrace, classifyOutcome, hfv, setFutureExc]
  · intro req env m e hfut hrace ht hh
    obtain ⟨fv, hfv⟩ := Option.isSome_iff_exists.mp hfut
    cases e with
    | timeoutError s => exact absurd rfl (ht s)
    | heartbeatMissed s => exact absurd rfl (hh s)
    | sensorLimitExceeded s =>
      refine ⟨?_, ?_, ?_, ?_⟩ <;>
        simp [runGatedJob, hrace, classifyOutcome, hfv, setFutureExc]
    | queueFull s =>
      refine ⟨?_, ?_, ?_, ?_⟩ <;>
        simp [runGatedJob, hrace, classifyOutcome, hfv, setFutureExc]
    | invalidStateError s =>
      refine ⟨?_, ?_, ?_, ?_⟩ <;>
        simp [runGatedJob, hrace, classifyOutcome, hfv, setFutureExc]
    | otherExc n s =>
      refine ⟨?_, ?_, ?_, ?_⟩ <;>
        simp [runGatedJob, hrace, classifyOutcome, hfv, setFutureExc]
  · intro p reads fuel req env m hfut habort
    obtain ⟨fv, hfv⟩ := Option.isSome_iff_exists.mp hfut
    have hc := enforce_counters p reads fuel m
    rw [habort] at hc
    simp only [reduceIte] at hc
    refine ⟨?_, ?_, ?_, ?_⟩ <;>
      simp [processRequest, habort, hfv, setFutureExc, hc.2.2.1]

/-- Witness for C1 amended: the guarded value path on a cancelled handle
makes no resolution call; the timeout path on the same handle calls
set_exception and dies. -/
theorem resolved_handle_guard_only_on_value_witness :
    ((runGatedJob (α := Nat) { future := some .cancelled }
        { body := .value 3 } WorkQueueMetrics.init).metrics.completed = 1
      ∧ (runGatedJob (α := Nat) { future := some .cancelled }
          { body := .value 3 } WorkQueueMetrics.init).setCalls = 0)
    ∧ ((runGatedJob (α := Nat)
          { duration_limit := some 1, future := some .cancelled }
          { body := .value 3, exceedsLimit := true }
          WorkQueueMetrics.init).metrics.timed_out = 1
      ∧ (runGatedJob (α := Nat)
          { duration_limit := some 1, future := some .cancelled }
          { body := .value 3, exceedsLimit := true }
          WorkQueueMetrics.init).workerExc
          = some (.invalidStateError "invalid state")) := by
  have h1 := (resolved_handle_guard_only_on_value Nat).1
    { future := some .cancelled } { body := .value 3 }
    WorkQueueMetrics.init 3 rfl (by decide)
  have h2 := (resolved_handle_guard_only_on_value Nat).2.1
    { duration_limit := some 1, future := some .cancelled }
    { body := .value 3, exceedsLimit := true }
    WorkQueueMetrics.init rfl (by decide)
  exact ⟨⟨h1.1, h1.2.2.1⟩, ⟨h2.1, h2.2.2.2⟩⟩

/-- Helper: the gated job run preserves the corrected metrics identity
started + sensor_aborts = completed + timed_out + heartbeat_missed +
failed. -/
theorem runGatedJob_balance (req : JobRequest α) (env : JobEnv α)
    (m : WorkQueueMetrics)
    (hm : m.started + m.sensor_aborts
        = m.completed + m.timed_out + m.heartbeat_missed + m.failed) :
    (runGatedJob req env m).metrics.started
      + (runGatedJob req env m).metrics.sensor_aborts
    = (runGatedJob req env m).metrics.completed
      + (runGatedJob req env m).metrics.timed_out
      + (runGatedJob req env m).metrics.heartbeat_missed
      + (runGatedJob req env m).metrics.failed := by
  have hc := classifyOutcome_counters req (raceOutcome req env)
    { m with started := m.started + 1 }
  obtain ⟨h1, h2, _, _, h5⟩ := hc
  simp only [runGatedJob]
  simp at h1 h2 h5
  omega

/-- Helper: the whole per-request worker body preserves the corrected
metrics identity. -/
theorem processRequest_balance (policy : Option SensorPolicy)
    (reads : Nat → Option SensorSnapshot) (fuel : Nat)
    (req : JobRequest α) (env : JobEnv α) (m : WorkQueueMetrics)
    (hm : m.started + m.sensor_aborts
        = m.completed + m.timed_out + m.heartbeat_missed + m.failed) :
    (processRequest policy reads fuel req env m).metrics.started
      + (processRequest policy reads fuel req env m).metrics.sensor_aborts
    = (processRequest policy reads fuel req env m).metrics.completed
      + (processRequest policy reads fuel req env m).metrics.timed_out
      + (processRequest policy reads fuel req env m).metrics.heartbeat_missed
      + (processRequest policy reads fuel req env m).metrics.failed := by
  cases policy with
  | none => exact runGatedJob_balance req env m hm
  | some p =>
    obtain ⟨e1, e2, e3, e4, e5, e6, e7⟩ := enforce_counters p reads fuel m
    simp only [processRequest]
    rcases ho : (p.enforce reads fuel m).outcome with _ | o
    · rw [ho] at e7
      simp only [reduceCtorEq, reduceIte, Nat.add_zero] at e7
      simp only [ho]
      omega
    · cases o
      · rw [ho] at e7
        simp only [reduceCtorEq, Option.some.injEq, reduceIte,
          Nat.add_zero] at e7
        simp only [ho]
        exact runGatedJob_balance req env _ (by omega)
      · rw [ho] at e7
        simp only [reduceIte] at e7
        simp only [ho]
        omega

/-- Helper: every queue event preserves the corrected metrics identity. -/
theorem stepMetrics_balance (policy : Option SensorPolicy)
    (m : WorkQueueMetrics) (ev : RunEvent α)
    (hm : m.started + m.sensor_aborts
        = m.completed + m.timed_out + m.heartbeat_missed + m.failed) :
    (stepMetrics policy m ev).started
      + (stepMetrics policy m ev).sensor_aborts
    = (stepMetrics policy m ev).completed
      + (stepMetrics policy m ev).timed_out
      + (stepMetrics policy m ev).heartbeat_missed
      + (stepMetrics policy m ev).failed := by
  cases ev with
  | reject => simpa [stepMetrics] using hm
  | work req env reads fuel =>
    simpa [stepMetrics] using
      processRequest_balance policy reads fuel req env m hm

/-- Helper: the corrected metrics identity is preserved by any sequence of
queue events. -/
theorem runMetrics_balance (policy : Option SensorPolicy) :
    ∀ (events : List (RunEvent α)) (m : WorkQueueMetrics),
      m.started + m.sensor_aborts
        = m.completed + m.timed_out + m.heartbeat_missed + m.failed →
      (runMetrics policy events m).started
        + (runMetrics policy events m).sensor_aborts
      = (runMetrics policy events m).completed
        + (runMetrics policy events m).timed_out
        + (runMetrics policy events m).heartbeat_missed
        + (runMetrics policy events m).failed := by
  intro events
  induction events with
  | nil => intro m hm; exact hm
  | cons ev evs ih =>
    intro m hm
    exact ih (stepMetrics policy m ev) (stepMetrics_balance policy m ev hm)

/-- C2 counterexample: after a single sensor-aborted job, started is 0 but
failed is 1 (sensor aborts are counted in failed without contributing to
started), so the claimed identity started = completed + timed_out +
heartbeat_missed + failed is false at a quiescent point. -/
theorem metrics_identity_fails_on_abort :
    ¬ ((runMetrics (α := Nat)
        (some { hasReader := true, max_temperature_c := some 80,
                stop_on_violation := true })
        [.work { } { body := .value 0 }
          (fun _ => some { temperature_c := some 100 }) 1]
        WorkQueueMetrics.init).started
      = (runMetrics (α := Nat)
          (some { hasReader := true, max_temperature_c := some 80,
                  stop_on_violation := true })
          [.work { } { body := .value 0 }
            (fun _ => some { temperature_c := some 100 }) 1]
          WorkQueueMetrics.init).completed
        + (runMetrics (α := Nat)
            (some { hasReader := true, max_temperature_c := some 80,
                    stop_on_violation := true })
            [.work { } { body := .value 0 }
              (fun _ => some { temperature_c := some 100 }) 1]
            WorkQueueMetrics.init).timed_out
        + (runMetrics (α := Nat)
            (some { hasReader := true, max_temperature_c := some 80,
                    stop_on_violation := true })
            [.work { } { body := .value 0 }
              (fun _ => some { temperature_c := some 100 }) 1]
            WorkQueueMetrics.init).heartbeat_missed
        + (runMetrics (α := Nat)
            (some { hasReader := true, max_temperature_c := some 80,
                    stop_on_violation := true })
            [.work { } { body := .value 0 }
              (fun _ => some { temperature_c := some 100 }) 1]
            WorkQueueMetrics.init).failed) := by decide

/-- C2 amended: at every quiescent point of a run started from fresh
metrics, started + sensor_aborts = completed + timed_out +
heartbeat_missed + failed — equivalently, started equals the sum of the
four outcome counters once the sensor-abort contribution to failed is
removed. -/
theorem metrics_balance_with_aborts (α : Type)
    (policy : Option SensorPolicy) (events : List (RunEvent α)) :
    (runMetrics policy events WorkQueueMetrics.init).started
      + (runMetrics policy events WorkQueueMetrics.init).sensor_aborts
    = (runMetrics policy events WorkQueueMetrics.init).completed
      + (runMetrics policy events WorkQueueMetrics.init).timed_out
      + (runMetrics policy events WorkQueueMetrics.init).heartbeat_missed
      + (runMetrics policy events WorkQueueMetrics.init).failed :=
  runMetrics_balance policy events WorkQueueMetrics.init rfl

/-- C7 counterexample: one worker, two admitted requests, stop called
while the first is being handled (the stop flag is observed at the second
loop head).  The worker processes the first request and exits; stop's
gather then returns, yet the second admitted request is still in the
queue with its handle pending — it is neither processed nor resolved. -/
theorem stop_leaves_admitted_handle_unresolved :
    (workerLoopRun (α := Nat) none 1
        [.job { } { body := .value 7 } (fun _ => none) 0,
         .job { } { body := .value 8 } (fun _ => none) 0,
         .sentinel]
        WorkQueueMetrics.init).processed = [some (.result 7)]
    ∧ ((workerLoopRun (α := Nat) none 1
        [.job { } { body := .value 7 } (fun _ => none) 0,
         .job { } { body := .value 8 } (fun _ => none) 0,
         .sentinel]
        WorkQueueMetrics.init).leftover.map QCell.futureOf)
        = [some none, none] := by
  constructor <;>
    simp [workerLoopRun, processRequest, runGatedJob, raceOutcome,
      classifyOutcome, setFutureExc, createsMonitor, appliesDeadline,
      truthy, QCell.futureOf]

/-- C7 amended: after stop() is observed, a worker exits at the next loop
head without popping, so the cells still queued are returned untouched: a
worker that observes the stop flag immediately consumes nothing; a worker
processes at most one request per loop iteration granted before the flag
is observed; and the unconsumed cells are a suffix of the input queue,
their requests keeping their prior (pending) handles — nothing in stop()
resolves them. -/
theorem stop_flag_abandons_queue (α : Type) :
    (∀ (policy : Option SensorPolicy) (cells : List (QCell α))
        (m : WorkQueueMetrics),
        workerLoopRun policy 0 cells m = ⟨m, [], cells⟩)
    ∧ (∀ (policy : Option SensorPolicy) (stopAfter : Nat)
        (cells : List (QCell α)) (m : WorkQueueMetrics),
        (workerLoopRun policy stopAfter cells m).processed.length
          ≤ stopAfter)
    ∧ (∀ (policy : Option SensorPolicy) (stopAfter : Nat)
        (cells : List (QCell α)) (m : WorkQueueMetrics),
        ∃ j, (workerLoopRun policy stopAfter cells m).leftover
          = cells.drop j) := by
  refine ⟨?_, ?_, ?_⟩
  · intro policy cells m
    cases cells <;> rfl
  · intro policy stopAfter cells m
    induction cells generalizing stopAfter m with
    | nil => cases stopAfter <;> simp [workerLoopRun]
    | cons c rest ih =>
      cases stopAfter with
      | zero => simp [workerLoopRun]
      | succ s =>
        cases c with
        | sentinel => simp [workerLoopRun]
        | job req env reads fuel =>
          rw [workerLoopRun]
          by_cases hcr : (processRequest policy reads fuel req env m).inFlight
              || (processRequest policy reads fuel req env m).workerExc.isSome
          · simp [hcr]
          · rw [if_neg hcr]
            have h := ih s (processRequest policy reads fuel req env m).metrics
            show (workerLoopRun policy s rest
              (processRequest policy reads fuel req env m).metrics).processed.length
                + 1 ≤ s + 1
            omega
  · intro policy stopAfter cells m
    induction cells generalizing stopAfter m with
    | nil => cases stopAfter <;> exact ⟨0, rfl⟩
    | cons c rest ih =>
      cases stopAfter with
      | zero => exact ⟨0, rfl⟩
      | succ s =>
        cases c with
        | sentinel => exact ⟨1, rfl⟩
        | job req env reads fuel =>
          rw [workerLoopRun]
          by_cases hcr : (processRequest policy reads fuel req env m).inFlight
              || (processRequest policy reads fuel req env m).workerExc.isSome
          · exact ⟨1, by simp [hcr]⟩
          · obtain ⟨j, hj⟩ :=
              ih s (processRequest policy reads fuel req env m).metrics
            exact ⟨j + 1, by simp [hcr, hj]⟩

end HeatingMachine

